import Mathlib

/-
Verification of the selection-ledger and scoring logic of the
nfl-predictions-2025 repository (main.py), shallowly embedded in Lean.

Python strings are modelled as lists of characters (Str); the relevant
Python string operations (strip, lower, split on the token " - ") are
given structural definitions with the same observable behaviour on the
data this program handles (ASCII labels and numbers).  Pandas numeric
values are modelled as rationals.  Fallible operations (a .iloc[0] on an
empty selection, a missing CSV file, a failing remote write) are
modelled with Option.
-/

namespace NflPredictions

/-- Python strings, modelled as lists of characters. -/
abbrev Str := List Char

/-- The whitespace characters stripped by Python str.strip on this data. -/
def isSpaceChar (c : Char) : Bool :=
  c = ' ' || c = '\t' || c = '\n' || c = '\r'

/-- Model of Python str.strip: drop whitespace from both ends. -/
def pyStrip (s : Str) : Str :=
  ((s.dropWhile isSpaceChar).reverse.dropWhile isSpaceChar).reverse

/-- ASCII lower-casing of one character, as Python str.lower acts on the
ASCII labels appearing in this program. -/
def lowerChar (c : Char) : Char :=
  if 'A' ≤ c && c ≤ 'Z' then Char.ofNat (c.toNat + 32) else c

/-- Model of Python str.lower. -/
def pyLower (s : Str) : Str := s.map lowerChar

/-- Helper for splitOnDash: scans the text left to right, cutting at each
non-overlapping occurrence of the three-character separator " - ",
accumulating the current piece in reverse. -/
def splitDashAux : Str → Str → List Str
  | [], acc => [acc.reverse]
  | ' ' :: '-' :: ' ' :: rest, acc => acc.reverse :: splitDashAux rest []
  | c :: rest, acc => splitDashAux rest (c :: acc)

/-- Model of the Python expression raw.split(" - ") used by main.py when it
parses a legacy prediction cell.  Python splits at each leftmost
occurrence of the separator; a text with no occurrence yields a
one-element list. -/
def splitOnDash (s : Str) : List Str := splitDashAux s []

/-- Numeric characters. -/
def isDigitChar (c : Char) : Bool := '0' ≤ c && c ≤ '9'

/-- Value of a digit string. -/
def digitsVal (l : List Char) : ℕ :=
  l.foldl (fun acc c => 10 * acc + (c.toNat - 48)) 0

/-- Model of Python float() applied to the stripped points segment: an
optional sign, then digits with at most one decimal point and at least
one digit overall.  Exponent forms, inf and nan are not modelled; no such
token occurs in the tabular data this program parses.  A segment that
does not have this shape makes float() raise, modelled as none. -/
def parseFloatLit (s : Str) : Option ℚ :=
  let signed : Bool × Str :=
    match s with
    | '-' :: rest => (true, rest)
    | '+' :: rest => (false, rest)
    | _ => (false, s)
  let body := signed.2
  let val : Option ℚ :=
    match body.splitOn '.' with
    | [ip] =>
        if ip.length ≥ 1 ∧ ip.all isDigitChar then
          some ((digitsVal ip : ℚ))
        else none
    | [ip, fp] =>
        if (ip ++ fp).length ≥ 1 ∧ (ip ++ fp).all isDigitChar then
          some ((digitsVal ip : ℚ) + (digitsVal fp : ℚ) / 10 ^ fp.length)
        else none
    | _ => none
  val.map (fun q => if signed.1 then -q else q)

/-- An actual outcome for one category, as hard-coded in the
actual_2024_winners dictionary of main.py: either a single winning label
or a list of acceptable winning labels. -/
inductive Outcome where
  | single (label : Str)
  | multi (labels : List Str)
deriving DecidableEq

/-- Model of the legacy-cell parse in the scoring loop of main.py:
if " - " occurs in the raw text, the predicted label is the stripped
first segment and the points are the second segment stripped and parsed
as a float, with a failed float parse scoring 0; otherwise the predicted
label is the stripped raw text and the points are 0. -/
def parsePrediction (raw : Str) : Str × ℚ :=
  if 2 ≤ (splitOnDash raw).length then
    match parseFloatLit (pyStrip ((splitOnDash raw).getD 1 [])) with
    | some q => (pyStrip ((splitOnDash raw).headD []), q)
    | none => (pyStrip ((splitOnDash raw).headD []), 0)
  else (pyStrip raw, 0)

/-- The label segment of a raw prediction cell, before stripping: the
first " - "-separated segment when the separator occurs, otherwise the
whole raw text. -/
def labelSegment (raw : Str) : Str :=
  if 2 ≤ (splitOnDash raw).length then (splitOnDash raw).headD [] else raw

/-- Whether the legacy parse of a raw cell fails to extract a numeric
points value: no " - " separator, or a points segment float() rejects. -/
def parseFails (raw : Str) : Bool :=
  if 2 ≤ (splitOnDash raw).length then
    (parseFloatLit (pyStrip ((splitOnDash raw).getD 1 []))).isNone
  else true

/-- The correctness test of the scoring loop in main.py: the lower-cased
predicted label is compared with the lower-cased actual label, or with
each member of the list of acceptable labels. -/
def labelMatches (w : Str) (oc : Outcome) : Bool :=
  match oc with
  | .single a => pyLower w == pyLower a
  | .multi labels => labels.any (fun a => pyLower w == pyLower a)

/-- Grading of one prediction cell against one outcome, as in main.py:
parse the cell, test the label; a correct cell contributes its parsed
points, an incorrect one contributes 0; the flag records whether the
cell counted as a correct prediction. -/
def gradeCell (raw : Str) (oc : Outcome) : ℚ × Bool :=
  (if labelMatches (parsePrediction raw).1 oc then (parsePrediction raw).2 else 0,
   labelMatches (parsePrediction raw).1 oc)

/-- One row of the historical predictions table: the entrant name and the
category-column cells present for that row. -/
structure PredictionRow where
  name : Str
  cells : List (Str × Str)
deriving DecidableEq

/-- Model of the prediction_col in row test and the row[prediction_col]
read in main.py: the cell stored under a category column, if present. -/
def findCell (row : PredictionRow) (cat : Str) : Option Str :=
  (row.cells.find? (fun x => x.1 == cat)).map (fun x => x.2)

/-- The per-user accumulation of the scoring loop in main.py: walk the
outcome map in order; a category column absent from the row contributes
nothing; otherwise grade the cell, add its contribution to the running
total and count it when correct. -/
def scoreStep (row : PredictionRow) (acc : ℚ × ℕ) (oc : Str × Outcome) : ℚ × ℕ :=
  match findCell row oc.1 with
  | none => acc
  | some raw =>
      (acc.1 + (gradeCell raw oc.2).1,
       acc.2 + (if (gradeCell raw oc.2).2 then 1 else 0))

def scoreUser (outcomes : List (Str × Outcome)) (row : PredictionRow) : ℚ × ℕ :=
  outcomes.foldl (scoreStep row) (0, 0)

/-- The points contribution of one category of the outcome map to the
total of one row, read off from gradeCell. -/
def cellPoints (row : PredictionRow) (oc : Str × Outcome) : ℚ :=
  match findCell row oc.1 with
  | none => 0
  | some raw => (gradeCell raw oc.2).1

/-- Whether one category of the outcome map counts as a correct
prediction for one row. -/
def cellCorrect (row : PredictionRow) (oc : Str × Outcome) : Bool :=
  match findCell row oc.1 with
  | none => false
  | some raw => (gradeCell raw oc.2).2

/-- Modelled from the spec (refinement side): the matching rule as the
specification words it, applied to the trimmed predicted label.  With a
single-label outcome the prediction is correct exactly when it equals
the outcome label case-insensitively; with a set of acceptable labels,
exactly when it case-insensitively equals at least one member. -/
def specMatch (w : Str) (oc : Outcome) : Prop :=
  match oc with
  | .single a => pyLower w = pyLower a
  | .multi labels => ∃ a ∈ labels, pyLower w = pyLower a

instance (w : Str) (oc : Outcome) : Decidable (specMatch w oc) := by
  unfold specMatch
  cases oc <;> infer_instance

/-- A scored entrant, as assembled by the scoring loop of main.py before
display: name, total points and number of correct predictions. -/
structure UserScore where
  name : Str
  total : ℚ
  correct : ℕ
deriving DecidableEq

/-- Number of decimal digits of a natural number, with explicit fuel so
that it computes structurally. -/
def digitCountAux : ℕ → ℕ → ℕ
  | 0, _ => 0
  | fuel+1, n => if n < 10 then 1 else digitCountAux fuel (n / 10) + 1

/-- Number of decimal digits of a natural number. -/
def digitCount (n : ℕ) : ℕ := digitCountAux (n+1) n

/-- Round a rational to the nearest integer, ties to even, as the float
formatting of main.py rounds its decimal digits. -/
def roundHalfEven (q : ℚ) : ℤ :=
  if q - ⌊q⌋ < 1/2 then ⌊q⌋
  else if (1:ℚ)/2 < q - ⌊q⌋ then ⌊q⌋ + 1
  else if ⌊q⌋ % 2 = 0 then ⌊q⌋ else ⌊q⌋ + 1

/-- Floor of the base-10 logarithm of a positive rational: for values at
least 1, one less than the digit count of the integer part; for values
below 1, minus the least k with a * 10 ^ k at least 1, computed from the
ceiling of den / num. -/
def qExp10 (a : ℚ) : ℤ :=
  if 1 ≤ a then (digitCount ⌊a⌋.toNat : ℤ) - 1
  else
    if (a.den + a.num.toNat - 1) / a.num.toNat ≤ 1 then 0
    else -(digitCount ((a.den + a.num.toNat - 1) / a.num.toNat - 1) : ℤ)

/-- Model of the leaderboard sort key of main.py: the total is stored as
the percent-g-formatted text of the float total (6 significant digits,
trailing zeros dropped) and the sort reparses that text with float(), so
the effective key is the total rounded to 6 significant decimal digits,
ties to even.  At the rational level: scale the magnitude to 6 integer
digits using the floor base-10 exponent, round half-to-even, and scale
back, keeping the sign.  The binary double steps of the pipeline are
modelled as exact, consistently with the rational model of all numeric
values in this file; the float() reparse is order-preserving and so
leaves the key order unchanged. -/
def gKey (a : ℚ) : ℚ :=
  if a = 0 then 0
  else if a < 0 then
    -((roundHalfEven ((-a) / 10 ^ (qExp10 (-a) - 5)) : ℚ) * 10 ^ (qExp10 (-a) - 5))
  else (roundHalfEven (a / 10 ^ (qExp10 a - 5)) : ℚ) * 10 ^ (qExp10 a - 5)

/-- The order the leaderboard sort of main.py establishes: a row may
precede another when its rounded sort key (the percent-g-formatted and
reparsed total) is at least the other rounded key (sort by formatted
total points, descending). -/
def scoreGe (a b : UserScore) : Prop := gKey b.total ≤ gKey a.total

instance : DecidableRel scoreGe := fun a b => by
  unfold scoreGe
  infer_instance

instance : IsTotal UserScore scoreGe :=
  ⟨fun a b => (le_total (gKey b.total) (gKey a.total)).elim Or.inl Or.inr⟩

instance : IsTrans UserScore scoreGe :=
  ⟨fun _ _ _ h1 h2 => le_trans h2 h1⟩

/-- Model of scoring_results.sort(key points, reverse True) in main.py: a
stable sort of the scored rows into descending order of total points. -/
def leaderboardSort (l : List UserScore) : List UserScore :=
  l.insertionSort scoreGe

/-- One row of a per-category source table (columns selection, points). -/
structure CategoryEntry where
  selection : Str
  points : ℚ
deriving DecidableEq

/-- Lexicographic comparison of labels by character code, as pandas
compares the text values of the selection column. -/
def strLeb : Str → Str → Bool
  | [], _ => true
  | _ :: _, [] => false
  | a :: as, b :: bs =>
      if a.toNat < b.toNat then true
      else if b.toNat < a.toNat then false
      else strLeb as bs

/-- The order established by df.sort_values on columns points then
selection, both ascending: by points, ties broken by label. -/
def entryLE (a b : CategoryEntry) : Prop :=
  a.points < b.points ∨ (a.points = b.points ∧ strLeb a.selection b.selection = true)

instance : DecidableRel entryLE := fun a b => by
  unfold entryLE
  infer_instance

/-- Model of the per-category sort in main.py, for every category tab:
df.sort_values on points then selection, both ascending.  A stable
comparison sort on the composite key. -/
def sortCatalog (l : List CategoryEntry) : List CategoryEntry :=
  l.insertionSort entryLE

/-- One persisted selection row, with the columns name, category, points,
timestamp of the predictions table. -/
structure SelectionRecord where
  name : Str
  category : Str
  points : ℚ
  timestamp : Str
deriving DecidableEq

/-- Replace the timestamp of a record, keeping every other column. -/
def withTimestamp (t : Str) (r : SelectionRecord) : SelectionRecord :=
  ⟨r.name, r.category, r.points, t⟩

/-- The eight per-category tables load_data reads, under the data-frame
names used throughout main.py. -/
structure Catalogs where
  afc_df : List CategoryEntry
  nfc_df : List CategoryEntry
  mvp_df : List CategoryEntry
  dpoy_df : List CategoryEntry
  oroy_df : List CategoryEntry
  dark_horse_df : List CategoryEntry
  playoff_miss_df : List CategoryEntry
  worst_record_df : List CategoryEntry
deriving DecidableEq

/-- The nine selected labels a submission carries, as passed to
save_selection and save_selection_to_gsheets in main.py. -/
structure Picks where
  afc_winner : Str
  nfc_winner : Str
  sb_winner : Str
  mvp_winner : Str
  dpoy_winner : Str
  oroy_winner : Str
  dark_horse_winner : Str
  playoff_miss_winner : Str
  worst_record_winner : Str
deriving DecidableEq

/-- The nine point values looked up for a submission. -/
structure PickPoints where
  afc : ℚ
  nfc : ℚ
  sb : ℚ
  mvp : ℚ
  dpoy : ℚ
  oroy : ℚ
  dark_horse : ℚ
  playoff_miss : ℚ
  worst_record : ℚ
deriving DecidableEq

/-- Model of the lookup df[df[selection] == w][points].iloc[0] in
main.py: the points of the first table row whose selection equals the
label; .iloc[0] on an empty selection raises, modelled as none. -/
def lookupPoints (df : List CategoryEntry) (w : Str) : Option ℚ :=
  ((df.filter (fun e => e.selection == w)).head?).map (fun e => e.points)

/-- The Super Bowl lookup of main.py: the super-bowl pick is priced in
afc_df when it equals the AFC pick, otherwise in nfc_df. -/
def sbLookup (c : Catalogs) (p : Picks) : Option ℚ :=
  if p.sb_winner == p.afc_winner then lookupPoints c.afc_df p.sb_winner
  else lookupPoints c.nfc_df p.sb_winner

/-- The nine point lookups a submission performs, in the order main.py
performs them; the first failing lookup raises, aborting the whole
submission, modelled as none. -/
def lookupAllPoints (c : Catalogs) (p : Picks) : Option PickPoints :=
  (lookupPoints c.afc_df p.afc_winner).bind fun afc =>
  (lookupPoints c.nfc_df p.nfc_winner).bind fun nfc =>
  (sbLookup c p).bind fun sb =>
  (lookupPoints c.mvp_df p.mvp_winner).bind fun mvp =>
  (lookupPoints c.dpoy_df p.dpoy_winner).bind fun dpoy =>
  (lookupPoints c.oroy_df p.oroy_winner).bind fun oroy =>
  (lookupPoints c.dark_horse_df p.dark_horse_winner).bind fun dh =>
  (lookupPoints c.playoff_miss_df p.playoff_miss_winner).bind fun pm =>
  (lookupPoints c.worst_record_df p.worst_record_winner).bind fun wr =>
  some ⟨afc, nfc, sb, mvp, dpoy, oroy, dh, pm, wr⟩

/-- The nine fresh rows a submission appends, one per category, in the
order and with the category names main.py uses, each stamped with the
submission timestamp and the looked-up point value. -/
def newRows (name : Str) (pp : PickPoints) (ts : Str) : List SelectionRecord :=
  [ ⟨name, "AFC Winner".data, pp.afc, ts⟩,
    ⟨name, "NFC Winner".data, pp.nfc, ts⟩,
    ⟨name, "Super Bowl Winner".data, pp.sb, ts⟩,
    ⟨name, "MVP".data, pp.mvp, ts⟩,
    ⟨name, "DPOY".data, pp.dpoy, ts⟩,
    ⟨name, "OROY".data, pp.oroy, ts⟩,
    ⟨name, "Dark Horse".data, pp.dark_horse, ts⟩,
    ⟨name, "Underperformer".data, pp.playoff_miss, ts⟩,
    ⟨name, "Worst Record".data, pp.worst_record, ts⟩ ]

/-- The upsert at the core of save_selection and save_selection_to_gsheets
in main.py: drop every existing row whose name equals the submitting
name, then append the nine fresh rows.  A failing point lookup raises
before anything is produced, modelled as none. -/
def upsert (c : Catalogs) (ledger : List SelectionRecord) (name : Str)
    (p : Picks) (ts : Str) : Option (List SelectionRecord) :=
  let existing := ledger.filter (fun r => !(r.name == name))
  (lookupAllPoints c p).map (fun pp => existing ++ newRows name pp ts)

/-- Model of save_selection in main.py: load_selections always returns an
empty table, so the local save is the upsert applied to an empty prior
ledger. -/
def save_selection (c : Catalogs) (name : Str) (p : Picks) (ts : Str) :
    Option (List SelectionRecord) :=
  upsert c [] name p ts

/-- The gsheets entry of secrets.toml as save_selection_to_gsheets reads
it: whether the connection section is present, and the four required
service-account fields (none models a missing or empty field).  The
Python key named type is rendered acctType, type being reserved in Lean. -/
structure GSheetsSecrets where
  configured : Bool
  acctType : Option Str
  project_id : Option Str
  private_key : Option Str
  client_email : Option Str

/-- The remote spreadsheet as the submission sees it: the credentials,
the current worksheet content (none when the read raises because the
worksheet is absent), whether conn.update succeeds, and the message of
the error raised when it does not. -/
structure RemoteStore where
  secrets : GSheetsSecrets
  readData : Option (List SelectionRecord)
  writeOk : Bool
  writeErr : Str

/-- Whether all four required service-account fields are present. -/
def hasAllCreds (s : GSheetsSecrets) : Bool :=
  s.acctType.isSome && s.project_id.isSome && s.private_key.isSome && s.client_email.isSome

/-- Model of save_selection_to_gsheets in main.py.  Its whole body runs
inside one try block whose except clause turns any raised error into a
(False, message) pair, so the function always returns a pair and never
propagates an error: missing configuration, missing credential fields, a
non-service-account type, a failing point lookup and a rejected remote
write all map to (false, message); only a completed write maps to true. -/
def save_selection_to_gsheets (remote : RemoteStore) (c : Catalogs)
    (name : Str) (p : Picks) (ts : Str) : Bool × Str :=
  if !remote.secrets.configured then
    (false, "Google Sheets connection not configured in secrets.toml".data)
  else if !(hasAllCreds remote.secrets) then
    (false, "Missing service account credentials".data)
  else if !(remote.secrets.acctType == some ("service_account".data)) then
    (false, "Google Sheets connection must use service_account type for write operations".data)
  else
    match upsert c (remote.readData.getD []) name p ts with
    | none => (false, "Error saving to Google Sheets: single positional indexer is out-of-bounds".data)
    | some _ =>
        if remote.writeOk then (true, "Successfully saved to Google Sheets!".data)
        else (false, remote.writeErr)

/-- What the save-button handler of main.py leaves behind: the locally
saved table (none when the local save raised and the handler fell to its
error branch) and the messages shown to the user. -/
structure SubmitOutcome where
  localResult : Option (List SelectionRecord)
  messages : List Str
deriving DecidableEq

/-- Model of the save-button handler in main.py: first the local save,
then the remote save; a remote report of failure downgrades to a
warning message after the local-success message; a local failure takes
the error branch with nothing saved. -/
def handleSaveClick (remote : RemoteStore) (c : Catalogs) (name : Str)
    (p : Picks) (ts : Str) : SubmitOutcome :=
  match save_selection c name p ts with
  | none => ⟨none, ["Error saving predictions".data]⟩
  | some updated =>
      let g := save_selection_to_gsheets remote c name p ts
      if g.1 then
        ⟨some updated, ["Predictions saved for ".data ++ name ++ "!".data, g.2]⟩
      else
        ⟨some updated,
         ["Predictions saved locally for ".data ++ name ++ "!".data,
          "Google Sheets: ".data ++ g.2]⟩

/-- The categories CSV files as a mapping from path to parsed table; none
models a read on which pd.read_csv raises (absent file). -/
def CsvStore : Type := Str → Option (List CategoryEntry)

/-- Model of load_data in main.py: one function reads the eight category
CSV files in sequence and returns all eight tables; a raising read makes
the whole function raise, producing no table at all (none). -/
def load_data (fs : CsvStore) : Option Catalogs :=
  (fs "categories/afc_winner.csv".data).bind fun afc =>
  (fs "categories/nfc_winner.csv".data).bind fun nfc =>
  (fs "categories/mvp.csv".data).bind fun mvp =>
  (fs "categories/dpoy.csv".data).bind fun dpoy =>
  (fs "categories/oroy.csv".data).bind fun oroy =>
  (fs "categories/playoff_dark_horse.csv".data).bind fun dh =>
  (fs "categories/playoff_miss.csv".data).bind fun pm =>
  (fs "categories/worst_record.csv".data).bind fun wr =>
  some ⟨afc, nfc, mvp, dpoy, oroy, dh, pm, wr⟩

/-!  Helper lemmas about the embedded definitions.  -/

theorem strLeb_total : ∀ a b : Str, strLeb a b = true ∨ strLeb b a = true
  | [], _ => Or.inl rfl
  | _ :: _, [] => Or.inr rfl
  | a :: as, b :: bs => by
      by_cases h1 : a.toNat < b.toNat
      · exact Or.inl (by simp [strLeb, h1])
      · by_cases h2 : b.toNat < a.toNat
        · exact Or.inr (by simp [strLeb, h2])
        · rcases strLeb_total as bs with h | h
          · exact Or.inl (by simp [strLeb, h1, h2, h])
          · exact Or.inr (by simp [strLeb, h1, h2, h])

theorem strLeb_trans : ∀ a b c : Str,
    strLeb a b = true → strLeb b c = true → strLeb a c = true
  | [], _, _, _, _ => rfl
  | _ :: _, [], _, hab, _ => by simp [strLeb] at hab
  | _ :: _, _ :: _, [], _, hbc => by simp [strLeb] at hbc
  | a :: as, b :: bs, c :: cs, hab, hbc => by
      simp only [strLeb] at hab hbc ⊢
      split at hab
      next h1 =>
        split at hbc
        next h2 => rw [if_pos (Nat.lt_trans h1 h2)]
        next h2 =>
          split at hbc
          next h3 => simp at hbc
          next h3 => rw [if_pos (show a.toNat < c.toNat by omega)]
      next h1 =>
        split at hab
        next h3 => simp at hab
        next h3 =>
          split at hbc
          next h2 => rw [if_pos (show a.toNat < c.toNat by omega)]
          next h2 =>
            split at hbc
            next h4 => simp at hbc
            next h4 =>
              rw [if_neg (show ¬ a.toNat < c.toNat by omega),
                  if_neg (show ¬ c.toNat < a.toNat by omega)]
              exact strLeb_trans as bs cs hab hbc

instance : IsTotal CategoryEntry entryLE :=
  ⟨fun a b => by
    unfold entryLE
    rcases lt_trichotomy a.points b.points with h | h | h
    · exact Or.inl (Or.inl h)
    · rcases strLeb_total a.selection b.selection with hs | hs
      · exact Or.inl (Or.inr ⟨h, hs⟩)
      · exact Or.inr (Or.inr ⟨h.symm, hs⟩)
    · exact Or.inr (Or.inl h)⟩

instance : IsTrans CategoryEntry entryLE :=
  ⟨fun a b c hab hbc => by
    unfold entryLE at *
    rcases hab with h1 | ⟨h1, s1⟩
    · rcases hbc with h2 | ⟨h2, _⟩
      · exact Or.inl (lt_trans h1 h2)
      · exact Or.inl (h2 ▸ h1)
    · rcases hbc with h2 | ⟨h2, s2⟩
      · exact Or.inl (h1 ▸ h2)
      · exact Or.inr ⟨h1.trans h2, strLeb_trans _ _ _ s1 s2⟩⟩

theorem parsePrediction_fst (raw : Str) :
    (parsePrediction raw).1 = pyStrip (labelSegment raw) := by
  unfold parsePrediction labelSegment
  by_cases h : 2 ≤ (splitOnDash raw).length
  · simp only [h, if_true]
    split <;> rfl
  · simp [h]

theorem parsePrediction_snd_of_fail (raw : Str) (h : parseFails raw = true) :
    (parsePrediction raw).2 = 0 := by
  unfold parseFails at h
  unfold parsePrediction
  by_cases hl : 2 ≤ (splitOnDash raw).length
  · simp only [hl, if_true] at h ⊢
    rw [Option.isNone_iff_eq_none] at h
    rw [h]
  · simp [hl]

theorem labelMatches_iff (w : Str) (oc : Outcome) :
    labelMatches w oc = true ↔ specMatch w oc := by
  cases oc with
  | single a => simp [labelMatches, specMatch]
  | multi labels => simp [labelMatches, specMatch]

theorem gradeCell_snd_iff (raw : Str) (oc : Outcome) :
    (gradeCell raw oc).2 = true ↔ specMatch (pyStrip (labelSegment raw)) oc := by
  rw [show (gradeCell raw oc).2 = labelMatches (parsePrediction raw).1 oc from rfl,
      parsePrediction_fst, labelMatches_iff]

theorem gradeCell_fst_eq (raw : Str) (oc : Outcome) :
    (gradeCell raw oc).1 =
      (if (gradeCell raw oc).2 = true then (parsePrediction raw).2 else 0) := by
  by_cases h : labelMatches (parsePrediction raw).1 oc = true <;>
    simp [gradeCell, h]

theorem scoreStep_foldl (row : PredictionRow) :
    ∀ (ocs : List (Str × Outcome)) (a : ℚ) (n : ℕ),
      ocs.foldl (scoreStep row) (a, n) =
        (a + (ocs.map (cellPoints row)).sum, n + ocs.countP (cellCorrect row))
  | [], a, n => by simp
  | oc :: rest, a, n => by
      rw [List.foldl_cons]
      cases h : findCell row oc.1 with
      | none =>
          rw [show scoreStep row (a, n) oc = (a, n) from by simp [scoreStep, h]]
          rw [scoreStep_foldl row rest a n]
          simp only [List.map_cons, List.sum_cons, List.countP_cons, Prod.mk.injEq]
          constructor
          · rw [show cellPoints row oc = 0 from by simp [cellPoints, h]]
            ring
          · rw [show cellCorrect row oc = false from by simp [cellCorrect, h]]
            simp
      | some raw =>
          rw [show scoreStep row (a, n) oc =
              (a + (gradeCell raw oc.2).1,
               n + (if (gradeCell raw oc.2).2 then 1 else 0)) from by simp [scoreStep, h]]
          rw [scoreStep_foldl row rest _ _]
          simp only [List.map_cons, List.sum_cons, List.countP_cons, Prod.mk.injEq]
          constructor
          · rw [show cellPoints row oc = (gradeCell raw oc.2).1 from by simp [cellPoints, h]]
            ring
          · rw [show cellCorrect row oc = (gradeCell raw oc.2).2 from by simp [cellCorrect, h]]
            cases (gradeCell raw oc.2).2 <;> simp
            omega

theorem scoreUser_eq (outcomes : List (Str × Outcome)) (row : PredictionRow) :
    scoreUser outcomes row =
      ((outcomes.map (cellPoints row)).sum, outcomes.countP (cellCorrect row)) := by
  unfold scoreUser
  rw [scoreStep_foldl]
  simp

theorem lookupAllPoints_parts (c : Catalogs) (p : Picks) (pp : PickPoints)
    (h : lookupAllPoints c p = some pp) :
    lookupPoints c.afc_df p.afc_winner = some pp.afc ∧
    lookupPoints c.nfc_df p.nfc_winner = some pp.nfc ∧
    sbLookup c p = some pp.sb ∧
    lookupPoints c.mvp_df p.mvp_winner = some pp.mvp ∧
    lookupPoints c.dpoy_df p.dpoy_winner = some pp.dpoy ∧
    lookupPoints c.oroy_df p.oroy_winner = some pp.oroy ∧
    lookupPoints c.dark_horse_df p.dark_horse_winner = some pp.dark_horse ∧
    lookupPoints c.playoff_miss_df p.playoff_miss_winner = some pp.playoff_miss ∧
    lookupPoints c.worst_record_df p.worst_record_winner = some pp.worst_record := by
  simp only [lookupAllPoints, Option.bind_eq_some, Option.some.injEq] at h
  obtain ⟨afc, h1, nfc, h2, sb, h3, mvp, h4, dpoy, h5, oroy, h6, dh, h7, pm, h8,
    wr, h9, hpp⟩ := h
  subst hpp
  exact ⟨h1, h2, h3, h4, h5, h6, h7, h8, h9⟩

theorem upsert_eq_some (c : Catalogs) (L : List SelectionRecord) (n : Str)
    (p : Picks) (ts : Str) (L1 : List SelectionRecord) :
    upsert c L n p ts = some L1 ↔
      ∃ pp, lookupAllPoints c p = some pp ∧
        L1 = L.filter (fun r => !(r.name == n)) ++ newRows n pp ts := by
  unfold upsert
  cases h : lookupAllPoints c p with
  | none => simp [h]
  | some pp => simp [h, eq_comm]

theorem newRows_name (n : Str) (pp : PickPoints) (ts : Str) :
    ∀ r ∈ newRows n pp ts, r.name = n := by
  intro r hr
  simp only [newRows, List.mem_cons, List.not_mem_nil, or_false] at hr
  rcases hr with rfl | rfl | rfl | rfl | rfl | rfl | rfl | rfl | rfl <;> rfl

theorem newRows_retime (n : Str) (pp : PickPoints) (t1 t2 : Str) :
    (newRows n pp t1).map (withTimestamp t2) = newRows n pp t2 := rfl

theorem filter_name_eq_of_all (n : Str) (l : List SelectionRecord)
    (hall : ∀ r ∈ l, r.name = n) :
    l.filter (fun r => r.name == n) = l := by
  rw [List.filter_eq_self]
  intro r hr
  simp [hall r hr]

theorem filter_name_ne_of_all (n : Str) (l : List SelectionRecord)
    (hall : ∀ r ∈ l, r.name = n) :
    l.filter (fun r => !(r.name == n)) = [] := by
  rw [List.filter_eq_nil_iff]
  intro r hr
  simp [hall r hr]

theorem filter_name_eq_other (n m : Str) (l : List SelectionRecord)
    (hall : ∀ r ∈ l, r.name = m) (hnm : m ≠ n) :
    l.filter (fun r => r.name == n) = [] := by
  rw [List.filter_eq_nil_iff]
  intro r hr
  simp [hall r hr, hnm]

theorem filter_ne_idem (n : Str) (l : List SelectionRecord) :
    (l.filter (fun r => !(r.name == n))).filter (fun r => !(r.name == n)) =
      l.filter (fun r => !(r.name == n)) := by
  rw [List.filter_filter]
  simp

theorem filter_eq_of_filter_ne (n : Str) (l : List SelectionRecord) :
    (l.filter (fun r => !(r.name == n))).filter (fun r => r.name == n) = [] := by
  rw [List.filter_filter]
  rw [List.filter_eq_nil_iff]
  intro r _
  cases h : r.name == n <;> simp [h]

theorem filter_eq_through_ne (u v : Str) (l : List SelectionRecord) (huv : u ≠ v) :
    (l.filter (fun r => !(r.name == v))).filter (fun r => r.name == u) =
      l.filter (fun r => r.name == u) := by
  rw [List.filter_filter]
  apply List.filter_congr
  intro r _
  cases h : r.name == u with
  | false => simp [h]
  | true =>
      have hru : r.name = u := by simpa using h
      simp [h, hru, huv]

/-!  Concrete fixtures used by witnesses and counterexamples.  -/

/-- A one-row category table assigning 2 points to the label T. -/
def dfTwo : List CategoryEntry := [⟨"T".data, 2⟩]

/-- A one-row category table assigning 5 points to the label T. -/
def dfFive : List CategoryEntry := [⟨"T".data, 5⟩]

/-- Catalogs in which every category prices T at 2 points. -/
def catTwo : Catalogs := ⟨dfTwo, dfTwo, dfTwo, dfTwo, dfTwo, dfTwo, dfTwo, dfTwo⟩

/-- Catalogs in which every category prices T at 5 points. -/
def catFive : Catalogs := ⟨dfFive, dfFive, dfFive, dfFive, dfFive, dfFive, dfFive, dfFive⟩

/-- A submission picking T everywhere. -/
def picksT : Picks :=
  ⟨"T".data, "T".data, "T".data, "T".data, "T".data, "T".data, "T".data, "T".data, "T".data⟩

/-- A submission picking T everywhere except an unknown MVP label. -/
def picksBadMvp : Picks :=
  ⟨"T".data, "T".data, "T".data, "Nobody".data, "T".data, "T".data, "T".data, "T".data, "T".data⟩

/-- The nine looked-up point values for picksT against catTwo. -/
def ppTwo : PickPoints := ⟨2, 2, 2, 2, 2, 2, 2, 2, 2⟩

/-- The nine looked-up point values for picksT against catFive. -/
def ppFive : PickPoints := ⟨5, 5, 5, 5, 5, 5, 5, 5, 5⟩

/-!  Claim theorems.  -/

/-- C1: for every historical record and every category, the scoring pass
marks the prediction correct exactly when the predicted label, after
trimming, equals the outcome label case-insensitively, and when the
outcome entry is a set of labels, exactly when it case-insensitively
equals at least one member; a correct category contributes the parsed
points of the record to the total and one to the correct count, and an
unmatched category contributes 0. -/
theorem scoring_matching_rule (raw : Str) (oc : Outcome)
    (outcomes : List (Str × Outcome)) (row : PredictionRow) :
    ((gradeCell raw oc).2 = true ↔ specMatch (pyStrip (labelSegment raw)) oc) ∧
    (gradeCell raw oc).1 =
      (if (gradeCell raw oc).2 = true then (parsePrediction raw).2 else 0) ∧
    scoreUser outcomes row =
      ((outcomes.map (cellPoints row)).sum, outcomes.countP (cellCorrect row)) :=
  ⟨gradeCell_snd_iff raw oc, gradeCell_fst_eq raw oc, scoreUser_eq outcomes row⟩

/-- C2 counterexample: the raw cell Chiefs has no " - " separator, so its
legacy parse fails; yet matched against the outcome Chiefs the scoring
pass counts it as a correct prediction (with 0 points), so a
parse-failing record can increment the correct count, contradicting the
claim that it never does. -/
theorem unparsable_cell_counts_correct :
    parseFails "Chiefs".data = true ∧
    (gradeCell "Chiefs".data (Outcome.single "Chiefs".data)).2 = true ∧
    scoreUser [("AFC Winner".data, Outcome.single "Chiefs".data)]
      ⟨"u".data, [("AFC Winner".data, "Chiefs".data)]⟩ = (0, 1) := by
  have hg : gradeCell "Chiefs".data (Outcome.single "Chiefs".data) = (0, true) := by decide
  have hf : findCell ⟨"u".data, [("AFC Winner".data, "Chiefs".data)]⟩ "AFC Winner".data =
      some "Chiefs".data := by decide
  refine ⟨by decide, by decide, ?_⟩
  simp [scoreUser, scoreStep, hf, hg]

/-- C2 amended: a historical record whose raw text cannot be parsed as
label - points (no separator, or a points segment that float() rejects)
contributes 0 points and never makes the scoring pass raise; however it
is not always treated as incorrect: its predicted label, which is the
stripped text before the first separator when a separator occurs and the
stripped raw text otherwise, is still matched against the outcome, and
the record increments the correct count exactly when that label matches
the outcome, while still contributing 0 points. -/
theorem parse_failure_scores_zero (raw : Str) (oc : Outcome)
    (h : parseFails raw = true) :
    (parsePrediction raw).2 = 0 ∧ (gradeCell raw oc).1 = 0 ∧
    ((gradeCell raw oc).2 = true ↔ specMatch (pyStrip (labelSegment raw)) oc) := by
  refine ⟨parsePrediction_snd_of_fail raw h, ?_, gradeCell_snd_iff raw oc⟩
  rw [gradeCell_fst_eq, parsePrediction_snd_of_fail raw h]
  simp

/-- Witness for the amended C2 at the concrete input of the spec and at
a cell with a separator but a non-numeric points segment, whose label
still matches and is counted correct with 0 points. -/
theorem parse_failure_scores_zero_witness :
    parseFails "garbage-no-separator".data = true ∧
    parseFails "Chiefs - abc".data = true ∧
    ((parsePrediction "garbage-no-separator".data).2 = 0 ∧
     (gradeCell "garbage-no-separator".data (Outcome.single "Chiefs".data)).1 = 0 ∧
     ((gradeCell "garbage-no-separator".data (Outcome.single "Chiefs".data)).2 = true ↔
       specMatch (pyStrip (labelSegment "garbage-no-separator".data))
         (Outcome.single "Chiefs".data))) ∧
    ((parsePrediction "Chiefs - abc".data).2 = 0 ∧
     (gradeCell "Chiefs - abc".data (Outcome.single "Chiefs".data)).1 = 0 ∧
     ((gradeCell "Chiefs - abc".data (Outcome.single "Chiefs".data)).2 = true ↔
       specMatch (pyStrip (labelSegment "Chiefs - abc".data))
         (Outcome.single "Chiefs".data))) ∧
    (gradeCell "Chiefs - abc".data (Outcome.single "Chiefs".data)).2 = true :=
  ⟨by decide, by decide,
   parse_failure_scores_zero "garbage-no-separator".data
     (Outcome.single "Chiefs".data) (by decide),
   parse_failure_scores_zero "Chiefs - abc".data
     (Outcome.single "Chiefs".data) (by decide),
   by decide⟩

/-- C4: for every category table, the sorted catalog is non-decreasing in
points, and among entries of equal points non-decreasing in the
selection label. -/
theorem catalog_sorted (l : List CategoryEntry) :
    (sortCatalog l).Pairwise
      (fun a b => a.points ≤ b.points ∧
        (a.points = b.points → strLeb a.selection b.selection = true)) := by
  have h : (sortCatalog l).Pairwise entryLE := List.sorted_insertionSort entryLE l
  refine h.imp ?_
  intro a b hab
  rcases hab with h1 | ⟨h1, h2⟩
  · exact ⟨le_of_lt h1, fun he => absurd (he ▸ h1) (lt_irrefl _)⟩
  · exact ⟨le_of_eq h1, fun _ => h2⟩

theorem gKey_four_low : gKey (4000001/4 : ℚ) = 1000000 := by
  have he : qExp10 (4000001/4 : ℚ) = 6 := by
    unfold qExp10
    rw [if_pos (by norm_num), show ⌊(4000001/4 : ℚ)⌋ = 1000000 from by norm_num]
    decide
  unfold gKey
  rw [if_neg (by norm_num), if_neg (by norm_num), he,
    show (4000001/4 : ℚ) / 10 ^ ((6:ℤ) - 5) = 4000001/40 from by norm_num,
    show roundHalfEven (4000001/40 : ℚ) = 100000 from by unfold roundHalfEven; norm_num]
  norm_num

theorem gKey_four_high : gKey (4000003/4 : ℚ) = 1000000 := by
  have he : qExp10 (4000003/4 : ℚ) = 6 := by
    unfold qExp10
    rw [if_pos (by norm_num), show ⌊(4000003/4 : ℚ)⌋ = 1000000 from by norm_num]
    decide
  unfold gKey
  rw [if_neg (by norm_num), if_neg (by norm_num), he,
    show (4000003/4 : ℚ) / 10 ^ ((6:ℤ) - 5) = 4000003/40 from by norm_num,
    show roundHalfEven (4000003/40 : ℚ) = 100000 from by unfold roundHalfEven; norm_num]
  norm_num

theorem gKey_one : gKey (1 : ℚ) = 1 := by
  have he : qExp10 (1 : ℚ) = 0 := by
    unfold qExp10
    rw [if_pos (by norm_num), show ⌊(1 : ℚ)⌋ = 1 from by norm_num]
    decide
  unfold gKey
  rw [if_neg (by norm_num), if_neg (by norm_num), he,
    show (1 : ℚ) / 10 ^ ((0:ℤ) - 5) = 100000 from by norm_num,
    show roundHalfEven (100000 : ℚ) = 100000 from by unfold roundHalfEven; norm_num]
  norm_num

theorem gKey_two : gKey (2 : ℚ) = 2 := by
  have he : qExp10 (2 : ℚ) = 0 := by
    unfold qExp10
    rw [if_pos (by norm_num), show ⌊(2 : ℚ)⌋ = 2 from by norm_num]
    decide
  unfold gKey
  rw [if_neg (by norm_num), if_neg (by norm_num), he,
    show (2 : ℚ) / 10 ^ ((0:ℤ) - 5) = 200000 from by norm_num,
    show roundHalfEven (200000 : ℚ) = 200000 from by unfold roundHalfEven; norm_num]
  norm_num

/-- C7 counterexample: the leaderboard sort of main.py keys on the
percent-g-formatted total reparsed with float(), a 6-significant-digit
rounding.  The exact totals 1000000.25 and 1000000.75 are distinct, yet
both round to the key 1000000, so the stable sort keeps the input order
and lists the lower-total user first, contradicting the claim that for
two users with distinct totals the higher-total user appears first. -/
theorem leaderboard_rounding_collision :
    (4000001/4 : ℚ) < 4000003/4 ∧
    gKey (4000001/4 : ℚ) = gKey (4000003/4 : ℚ) ∧
    leaderboardSort [⟨"low".data, 4000001/4, 0⟩, ⟨"high".data, 4000003/4, 0⟩] =
      [⟨"low".data, 4000001/4, 0⟩, ⟨"high".data, 4000003/4, 0⟩] := by
  refine ⟨by norm_num, by rw [gKey_four_low, gKey_four_high], ?_⟩
  simp [leaderboardSort, List.insertionSort, List.orderedInsert, scoreGe,
    gKey_four_low, gKey_four_high]

/-- C7 amended: the leaderboard is ordered descending by the rounded sort
key actually used by main.py, the total formatted with percent-g (6
significant digits) and reparsed with float(); for two users whose
rounded keys are distinct, the user with the higher key appears first
from either input order.  Users whose distinct exact totals collide
under the rounding keep their input order under the stable sort. -/
theorem leaderboard_descending_rounded (l : List UserScore) (u v : UserScore)
    (h : gKey v.total < gKey u.total) :
    (leaderboardSort l).Pairwise (fun a b => gKey b.total ≤ gKey a.total) ∧
    leaderboardSort [u, v] = [u, v] ∧ leaderboardSort [v, u] = [u, v] := by
  refine ⟨?_, ?_, ?_⟩
  · have hs : (leaderboardSort l).Pairwise scoreGe :=
      List.sorted_insertionSort scoreGe l
    exact hs.imp (fun hab => hab)
  · simp [leaderboardSort, List.insertionSort, List.orderedInsert, scoreGe, h.le]
  · simp [leaderboardSort, List.insertionSort, List.orderedInsert, scoreGe, h.le, h.not_le]

/-- Witness for the amended C7 at two concrete users with distinct
rounded keys. -/
theorem leaderboard_descending_rounded_witness :
    gKey (1:ℚ) < gKey (2:ℚ) ∧
    ((leaderboardSort []).Pairwise (fun a b => gKey b.total ≤ gKey a.total) ∧
     leaderboardSort [⟨"A".data, 2, 0⟩, ⟨"B".data, 1, 0⟩] =
       [⟨"A".data, 2, 0⟩, ⟨"B".data, 1, 0⟩] ∧
     leaderboardSort [⟨"B".data, 1, 0⟩, ⟨"A".data, 2, 0⟩] =
       [⟨"A".data, 2, 0⟩, ⟨"B".data, 1, 0⟩]) :=
  ⟨by rw [gKey_one, gKey_two]; norm_num,
   leaderboard_descending_rounded [] ⟨"A".data, 2, 0⟩ ⟨"B".data, 1, 0⟩
     (by show gKey (1:ℚ) < gKey (2:ℚ); rw [gKey_one, gKey_two]; norm_num)⟩

/-- C3: upsert drops every existing record of the submitting user and
inserts one fresh record per category, so a second submission of the
same picks leaves exactly one record set for the user, identical to the
first up to the new timestamp, while the records of every other user are
preserved. -/
theorem upsert_resubmission (c : Catalogs) (L : List SelectionRecord)
    (u : Str) (p : Picks) (t1 t2 : Str) (L1 : List SelectionRecord)
    (h1 : upsert c L u p t1 = some L1) :
    ∃ L2, upsert c L1 u p t2 = some L2 ∧
      L2 = L1.filter (fun r => !(r.name == u)) ++
        (L1.filter (fun r => r.name == u)).map (withTimestamp t2) ∧
      L2.filter (fun r => r.name == u) =
        (L1.filter (fun r => r.name == u)).map (withTimestamp t2) ∧
      L2.filter (fun r => !(r.name == u)) = L1.filter (fun r => !(r.name == u)) ∧
      L1.filter (fun r => !(r.name == u)) = L.filter (fun r => !(r.name == u)) := by
  rw [upsert_eq_some] at h1
  obtain ⟨pp, hpp, hL1⟩ := h1
  subst hL1
  have hne : ∀ ts : Str,
      ((L.filter (fun r => !(r.name == u)) ++ newRows u pp ts).filter
        (fun r => !(r.name == u))) = L.filter (fun r => !(r.name == u)) := by
    intro ts
    rw [List.filter_append, filter_ne_idem,
      filter_name_ne_of_all u _ (newRows_name u pp ts), List.append_nil]
  have heq : ∀ ts : Str,
      ((L.filter (fun r => !(r.name == u)) ++ newRows u pp ts).filter
        (fun r => r.name == u)) = newRows u pp ts := by
    intro ts
    rw [List.filter_append, filter_eq_of_filter_ne,
      filter_name_eq_of_all u _ (newRows_name u pp ts), List.nil_append]
  refine ⟨L.filter (fun r => !(r.name == u)) ++ newRows u pp t2, ?_, ?_, ?_, ?_, ?_⟩
  · rw [upsert_eq_some]
    exact ⟨pp, hpp, by rw [hne t1]⟩
  · rw [hne t1, heq t1, newRows_retime]
  · rw [heq t2, heq t1, newRows_retime]
  · rw [hne t2, hne t1]
  · exact hne t1

/-- Witness for C3: a concrete double submission of the same picks. -/
theorem upsert_resubmission_witness :
    upsert catTwo [] "u1".data picksT "t1".data =
      some (newRows "u1".data ppTwo "t1".data) ∧
    (∃ L2, upsert catTwo (newRows "u1".data ppTwo "t1".data) "u1".data picksT
        "t2".data = some L2 ∧
      L2 = (newRows "u1".data ppTwo "t1".data).filter
          (fun r => !(r.name == "u1".data)) ++
        ((newRows "u1".data ppTwo "t1".data).filter
          (fun r => r.name == "u1".data)).map (withTimestamp "t2".data) ∧
      L2.filter (fun r => r.name == "u1".data) =
        ((newRows "u1".data ppTwo "t1".data).filter
          (fun r => r.name == "u1".data)).map (withTimestamp "t2".data) ∧
      L2.filter (fun r => !(r.name == "u1".data)) =
        (newRows "u1".data ppTwo "t1".data).filter
          (fun r => !(r.name == "u1".data)) ∧
      (newRows "u1".data ppTwo "t1".data).filter
          (fun r => !(r.name == "u1".data)) =
        List.filter (fun r => !(r.name == "u1".data))
          ([] : List SelectionRecord)) :=
  ⟨by decide, upsert_resubmission catTwo [] "u1".data picksT "t1".data "t2".data
    (newRows "u1".data ppTwo "t1".data) (by decide)⟩

/-- C6: an upsert one of whose picks carries a label matching no entry of
its category catalog fails outright (the point lookup raises, modelled
as none) and records nothing at all, in particular no silent zero-point
default for that category. -/
theorem upsert_unknown_selection (c : Catalogs) (L : List SelectionRecord)
    (u : Str) (p : Picks) (ts : Str)
    (h : lookupPoints c.afc_df p.afc_winner = none ∨
         lookupPoints c.nfc_df p.nfc_winner = none ∨
         sbLookup c p = none ∨
         lookupPoints c.mvp_df p.mvp_winner = none ∨
         lookupPoints c.dpoy_df p.dpoy_winner = none ∨
         lookupPoints c.oroy_df p.oroy_winner = none ∨
         lookupPoints c.dark_horse_df p.dark_horse_winner = none ∨
         lookupPoints c.playoff_miss_df p.playoff_miss_winner = none ∨
         lookupPoints c.worst_record_df p.worst_record_winner = none) :
    upsert c L u p ts = none := by
  cases hl : lookupAllPoints c p with
  | none => simp [upsert, hl]
  | some pp =>
      exfalso
      obtain ⟨h1, h2, h3, h4, h5, h6, h7, h8, h9⟩ := lookupAllPoints_parts c p pp hl
      rcases h with h | h | h | h | h | h | h | h | h <;> simp_all

/-- Witness for C6: a pick whose MVP label is absent from the MVP
catalog. -/
theorem upsert_unknown_selection_witness :
    lookupPoints catTwo.mvp_df picksBadMvp.mvp_winner = none ∧
    upsert catTwo [] "u1".data picksBadMvp "t1".data = none :=
  ⟨by decide, upsert_unknown_selection catTwo [] "u1".data picksBadMvp "t1".data
    (Or.inr (Or.inr (Or.inr (Or.inl (by decide)))))⟩

/-- C9: the points stored in a fresh record equal the catalog points
looked up for the picked label at submission time, and a later upsert
run with a changed catalog (for a different user) leaves every
previously stored record, points included, unchanged. -/
theorem snapshot_points (c c2 : Catalogs) (L L1 L2 : List SelectionRecord)
    (u v : Str) (p p2 : Picks) (t t2 : Str)
    (h1 : upsert c L u p t = some L1)
    (h2 : upsert c2 L1 v p2 t2 = some L2)
    (huv : u ≠ v) :
    (∃ pp, lookupAllPoints c p = some pp ∧
       L1.filter (fun r => r.name == u) = newRows u pp t ∧
       lookupPoints c.afc_df p.afc_winner = some pp.afc ∧
       lookupPoints c.nfc_df p.nfc_winner = some pp.nfc ∧
       sbLookup c p = some pp.sb ∧
       lookupPoints c.mvp_df p.mvp_winner = some pp.mvp ∧
       lookupPoints c.dpoy_df p.dpoy_winner = some pp.dpoy ∧
       lookupPoints c.oroy_df p.oroy_winner = some pp.oroy ∧
       lookupPoints c.dark_horse_df p.dark_horse_winner = some pp.dark_horse ∧
       lookupPoints c.playoff_miss_df p.playoff_miss_winner = some pp.playoff_miss ∧
       lookupPoints c.worst_record_df p.worst_record_winner = some pp.worst_record) ∧
    L2.filter (fun r => r.name == u) = L1.filter (fun r => r.name == u) := by
  rw [upsert_eq_some] at h1 h2
  obtain ⟨pp, hpp, hL1⟩ := h1
  obtain ⟨pp2, hpp2, hL2⟩ := h2
  have hL1eq : L1.filter (fun r => r.name == u) = newRows u pp t := by
    rw [hL1, List.filter_append, filter_eq_of_filter_ne,
      filter_name_eq_of_all u _ (newRows_name u pp t), List.nil_append]
  constructor
  · obtain ⟨g1, g2, g3, g4, g5, g6, g7, g8, g9⟩ := lookupAllPoints_parts c p pp hpp
    exact ⟨pp, hpp, hL1eq, g1, g2, g3, g4, g5, g6, g7, g8, g9⟩
  · rw [hL2, List.filter_append, filter_eq_through_ne u v _ huv,
      filter_name_eq_other u v _ (newRows_name v pp2 t2) (Ne.symm huv),
      List.append_nil]

/-- Witness for C9: a first submission priced by one catalog, then a
second user submitting after every price changed. -/
theorem snapshot_points_witness :
    upsert catTwo [] "u1".data picksT "t1".data =
      some (newRows "u1".data ppTwo "t1".data) ∧
    upsert catFive (newRows "u1".data ppTwo "t1".data) "u2".data picksT "t2".data =
      some (newRows "u1".data ppTwo "t1".data ++ newRows "u2".data ppFive "t2".data) ∧
    (newRows "u1".data ppTwo "t1".data ++
        newRows "u2".data ppFive "t2".data).filter
        (fun r => r.name == "u1".data) =
      (newRows "u1".data ppTwo "t1".data).filter (fun r => r.name == "u1".data) :=
  ⟨by decide, by decide,
    (snapshot_points catTwo catFive [] (newRows "u1".data ppTwo "t1".data)
      (newRows "u1".data ppTwo "t1".data ++ newRows "u2".data ppFive "t2".data)
      "u1".data "u2".data picksT picksT "t1".data "t2".data
      (by decide) (by decide) (by decide)).2⟩

/-- A file system holding every category CSV except the AFC one. -/
def fsMissingAfc : CsvStore := fun path =>
  if path == "categories/afc_winner.csv".data then none
  else some [⟨"Bills".data, 2⟩]

/-- C5 counterexample: with only the AFC table absent and every other
category table present, load_data produces nothing at all; the other
categories do not continue to load independently, contradicting the
claim that a missing table is fatal for that category only. -/
theorem load_not_per_category :
    fsMissingAfc "categories/afc_winner.csv".data = none ∧
    fsMissingAfc "categories/nfc_winner.csv".data = some [⟨"Bills".data, 2⟩] ∧
    load_data fsMissingAfc = none :=
  ⟨by decide, by decide, by decide⟩

/-- C5 amended: load_data reads the eight category tables in one pass
inside one function, so when any one category source table is absent the
whole load fails and no category table is produced at all; categories do
not load independently. -/
theorem load_data_all_or_nothing (fs : CsvStore)
    (h : fs "categories/afc_winner.csv".data = none ∨
         fs "categories/nfc_winner.csv".data = none ∨
         fs "categories/mvp.csv".data = none ∨
         fs "categories/dpoy.csv".data = none ∨
         fs "categories/oroy.csv".data = none ∨
         fs "categories/playoff_dark_horse.csv".data = none ∨
         fs "categories/playoff_miss.csv".data = none ∨
         fs "categories/worst_record.csv".data = none) :
    load_data fs = none := by
  cases hl : load_data fs with
  | none => rfl
  | some c =>
      exfalso
      simp only [load_data, Option.bind_eq_some] at hl
      obtain ⟨afc, h1, nfc, h2, mvp, h3, dpoy, h4, oroy, h5, dh, h6, pm, h7,
        wr, h8, _⟩ := hl
      rcases h with h | h | h | h | h | h | h | h <;> simp_all

/-- Witness for the amended C5 at the concrete file system missing only
the AFC table. -/
theorem load_data_all_or_nothing_witness :
    fsMissingAfc "categories/afc_winner.csv".data = none ∧
    load_data fsMissingAfc = none :=
  ⟨by decide, load_data_all_or_nothing fsMissingAfc (Or.inl (by decide))⟩

/-- A remote store with no configured gsheets connection: every write
attempt against it reports failure. -/
def remoteDown : RemoteStore := ⟨⟨false, none, none, none, none⟩, none, false, "err".data⟩

/-- A fully working remote store. -/
def remoteUp : RemoteStore :=
  ⟨⟨true, some "service_account".data, some "p".data, some "k".data, some "e".data⟩,
   some [], true, [].reverse⟩

/-- C8: a failing remote save is caught and reported as a warning and
never propagates or rolls back the local save: the button handler still
carries the locally saved table, the same table results whatever the
remote store does, and the warning message appears among the reported
messages. -/
theorem remote_failure_isolated (r1 r2 : RemoteStore) (c : Catalogs)
    (name : Str) (p : Picks) (ts : Str) (L : List SelectionRecord)
    (hl : save_selection c name p ts = some L)
    (hf : (save_selection_to_gsheets r1 c name p ts).1 = false) :
    (handleSaveClick r1 c name p ts).localResult = some L ∧
    (handleSaveClick r2 c name p ts).localResult = some L ∧
    ("Google Sheets: ".data ++ (save_selection_to_gsheets r1 c name p ts).2) ∈
      (handleSaveClick r1 c name p ts).messages := by
  have e1 : handleSaveClick r1 c name p ts =
      ⟨some L,
       ["Predictions saved locally for ".data ++ name ++ "!".data,
        "Google Sheets: ".data ++ (save_selection_to_gsheets r1 c name p ts).2]⟩ := by
    simp [handleSaveClick, hl, hf]
  have e2 : (handleSaveClick r2 c name p ts).localResult = some L := by
    cases hg : (save_selection_to_gsheets r2 c name p ts).1 <;>
      simp [handleSaveClick, hl, hg]
  rw [e1]
  exact ⟨rfl, e2, by simp⟩

/-- Witness for C8: a concrete submission with the remote store down and,
for comparison, up. -/
theorem remote_failure_isolated_witness :
    save_selection catTwo "u1".data picksT "t1".data =
      some (newRows "u1".data ppTwo "t1".data) ∧
    (save_selection_to_gsheets remoteDown catTwo "u1".data picksT "t1".data).1 = false ∧
    ((handleSaveClick remoteDown catTwo "u1".data picksT "t1".data).localResult =
        some (newRows "u1".data ppTwo "t1".data) ∧
     (handleSaveClick remoteUp catTwo "u1".data picksT "t1".data).localResult =
        some (newRows "u1".data ppTwo "t1".data) ∧
     ("Google Sheets: ".data ++
        (save_selection_to_gsheets remoteDown catTwo "u1".data picksT "t1".data).2) ∈
       (handleSaveClick remoteDown catTwo "u1".data picksT "t1".data).messages) :=
  ⟨by decide, by decide,
    remote_failure_isolated remoteDown remoteUp catTwo "u1".data picksT "t1".data
      (newRows "u1".data ppTwo "t1".data) (by decide) (by decide)⟩

end NflPredictions
